import Mathlib

/-!
Shallow embedding of the GSI installation daemon (gsid) from
system/gsid: the installer (`gsi_installer.cpp`), the service
(`gsi_service.cpp`, newest revision) and the on-disk boot-status
protocol.  Machine integers are modelled as `Nat`/`Int` with explicit
reduction modulo `2^64` (for `uint64_t`) or `2^32` (for `int`) exactly
where the C++ performs unsigned/truncating arithmetic.  Fallible system
calls (writes, fsync, statvfs, reads from a client stream) are supplied
as explicit boolean oracles or event lists, so every definition is
executable.
-/

namespace Gsid

/-! ### Machine-integer helpers -/

/-- Modulus of `uint64_t` arithmetic. -/
def U64MOD : Nat := 2 ^ 64

/-- Conversion of an `int64_t` value into the `uint64_t` it becomes when
stored in an unsigned field (two's complement). -/
def toU64 (x : Int) : Nat := (x % (U64MOD : Int)).toNat

/-- Model of `uint64_t` subtraction `a - b` (wraps modulo `2^64`); `a` and `b`
are assumed already reduced below `2^64`. -/
def u64sub (a b : Nat) : Nat := (a + U64MOD - b % U64MOD) % U64MOD

/-- Model of `uint64_t` addition. -/
def u64add (a b : Nat) : Nat := (a + b) % U64MOD

/-- Reinterpret a `uint64_t` bit pattern as the `int64_t` it converts
to (two's complement). -/
def toI64 (u : Nat) : Int :=
  if u % U64MOD < 2 ^ 63 then ((u % U64MOD : Nat) : Int)
  else ((u % U64MOD : Nat) : Int) - (U64MOD : Int)

/-- Truncation of a `uint64_t` value to a 32-bit signed `int`
(two's complement), as in `int new_progress = (u64 expression);`. -/
def toI32 (u : Nat) : Int :=
  if u % 2 ^ 32 < 2 ^ 31 then ((u % 2 ^ 32 : Nat) : Int)
  else ((u % 2 ^ 32 : Nat) : Int) - (2 ^ 32 : Int)

/-! ### Status codes (IGsiService) -/

/-- The installer status codes of `IGsiService`:
`INSTALL_OK (0)`, `INSTALL_ERROR_GENERIC (1)`, `INSTALL_ERROR_NO_SPACE (2)`,
`INSTALL_ERROR_FILE_SYSTEM_CLUTTERED (3)`. -/
inductive InstallResult
  | INSTALL_OK
  | INSTALL_ERROR_GENERIC
  | INSTALL_ERROR_NO_SPACE
  | INSTALL_ERROR_FILE_SYSTEM_CLUTTERED
deriving DecidableEq, Repr

/-- Model of `GsiProgress.status` values: `STATUS_NO_OPERATION (0)`,
`STATUS_WORKING (1)`, `STATUS_COMPLETE (2)`. -/
inductive ProgressStatus
  | STATUS_NO_OPERATION
  | STATUS_WORKING
  | STATUS_COMPLETE
deriving DecidableEq, Repr

/-- The shared progress record `GsiProgress`
(`{step, status, bytes_processed, total_bytes}`). -/
structure GsiProgress where
  step : String
  status : ProgressStatus
  bytes_processed : Int
  total_bytes : Int
deriving DecidableEq, Repr

/-- Model of `GsiService::StartAsyncOperation(step, total_bytes)`:
sets `step`, `status = WORKING`, `bytes_processed = 0`,
`total_bytes = total_bytes`. -/
def startAsyncOperation (step : String) (total_bytes : Int) (_p : GsiProgress) :
    GsiProgress :=
  { step := step, status := .STATUS_WORKING, bytes_processed := 0,
    total_bytes := total_bytes }

/-- Model of `GsiService::UpdateProgress(status, bytes_processed)`: stores the
status; when the status is `STATUS_COMPLETE` the processed count is
forced to `total_bytes`, otherwise it is set to `bytes_processed`. -/
def updateProgress (status : ProgressStatus) (bytes_processed : Int)
    (p : GsiProgress) : GsiProgress :=
  if status = .STATUS_COMPLETE then
    { p with status := status, bytes_processed := p.total_bytes }
  else
    { p with status := status, bytes_processed := bytes_processed }

/-! ### `GsiInstaller::CommitGsiChunk(const void* data, size_t bytes)`
(`gsi_installer.cpp:801-817`) -/

/-- Result of a single in-memory chunk commit: the return value, the
updated `gsi_bytes_written_` field, and whether a write to the mapped
device was issued. -/
structure ChunkResult where
  success : Bool
  written : Nat
  wrote : Bool
deriving DecidableEq, Repr

/-- Model of `GsiInstaller::CommitGsiChunk(data, bytes)`: rejects when
`bytes > gsi_size_ - gsi_bytes_written_` (unsigned subtraction) or when
the service's cooperative abort flag is raised, both before touching the
device; otherwise issues the device write and, on success, advances
`gsi_bytes_written_` by `bytes`. -/
def commitGsiChunkData (size written bytes : Nat)
    (shouldAbort writeOk : Bool) : ChunkResult :=
  if u64sub size written < bytes then ⟨false, written, false⟩
  else if shouldAbort then ⟨false, written, false⟩
  else if !writeOk then ⟨false, written, true⟩
  else ⟨true, u64add written bytes, true⟩

/-! ### Boot-status files touched by `GsiInstaller::SetGsiBootable`
(`gsi_installer.cpp:986-1020`) -/

/-- The on-disk boot-status files written at finalize time:
`kGsiInstallDirFile`, `kGsiLpMetadataFile`, `kGsiOneShotBootFile`
(presence/"1"), `kGsiInstallStatusFile`. -/
structure BootFiles where
  install_dir_file : Option String
  lp_metadata_file : Bool
  one_shot_file : Option String
  install_status_file : Option String
deriving DecidableEq, Repr

/-- One file operation performed by the finalize path, in program
order. -/
inductive FileOp
  | writeInstallDir
  | writeLpMetadata
  | writeOneShot
  | removeOneShot
  | writeInstallStatus
deriving DecidableEq, Repr

/-- Success/failure oracles for the system calls made by
`SetGsiBootable`. -/
structure FinalizeIo where
  flushOk : Bool
  pinnedOk : Bool
  writeInstallDirOk : Bool
  writeMetadataOk : Bool
  writeOneShotOk : Bool
  removeOneShotOk : Bool
  writeStatusOk : Bool
deriving DecidableEq, Repr

/-- Model of `GsiInstaller::SetBootMode(one_shot)` (`gsi_installer.cpp:819-833`):
for `one_shot` write `"1"` to the one-shot file; otherwise, if the
one-shot file exists, remove it. -/
def setBootMode (one_shot : Bool) (io : FinalizeIo) (st : BootFiles)
    (tr : List FileOp) : Bool × BootFiles × List FileOp :=
  if one_shot then
    if io.writeOneShotOk then
      (true, { st with one_shot_file := some "1" }, tr ++ [.writeOneShot])
    else (false, st, tr)
  else if st.one_shot_file.isSome then
    if io.removeOneShotOk then
      (true, { st with one_shot_file := none }, tr ++ [.removeOneShot])
    else (false, st, tr)
  else (true, st, tr)

/-- Model of `GsiInstaller::CreateInstallStatusFile()`
(`gsi_installer.cpp:839-845`): writes `"0"` to the install-status
file. -/
def createInstallStatusFile (io : FinalizeIo) (st : BootFiles)
    (tr : List FileOp) : Bool × BootFiles × List FileOp :=
  if io.writeStatusOk then
    (true, { st with install_status_file := some "0" },
     tr ++ [.writeInstallStatus])
  else (false, st, tr)

/-- Model of `GsiInstaller::CreateMetadataFile()` (`gsi_installer.cpp:900-906`):
writes the partition table blob to `kGsiLpMetadataFile`. -/
def createMetadataFile (io : FinalizeIo) (st : BootFiles)
    (tr : List FileOp) : Bool × BootFiles × List FileOp :=
  if io.writeMetadataOk then
    (true, { st with lp_metadata_file := true }, tr ++ [.writeLpMetadata])
  else (false, st, tr)

/-- Model of `GsiInstaller::SetGsiBootable(one_shot)`
(`gsi_installer.cpp:986-1020`): refuses (`INSTALL_ERROR_GENERIC`) when
`gsi_bytes_written_ != gsi_size_`, when the flush fails, or when a
partition lost its pinned extents — all before writing any boot-status
file; then writes `kGsiInstallDirFile`, the metadata file, the boot
mode, and the install-status file last.  Returns the status, the
resulting files and the list of file operations performed by this
call. -/
def setGsiBootable (size written : Nat) (one_shot : Bool)
    (install_dir : String) (io : FinalizeIo) (st : BootFiles) :
    InstallResult × BootFiles × List FileOp :=
  if written ≠ size then (.INSTALL_ERROR_GENERIC, st, [])
  else if !io.flushOk then (.INSTALL_ERROR_GENERIC, st, [])
  else if !io.pinnedOk then (.INSTALL_ERROR_GENERIC, st, [])
  else if !io.writeInstallDirOk then (.INSTALL_ERROR_GENERIC, st, [])
  else
    let st1 : BootFiles := { st with install_dir_file := some install_dir }
    let tr1 : List FileOp := [.writeInstallDir]
    match createMetadataFile io st1 tr1 with
    | (false, st2, tr2) => (.INSTALL_ERROR_GENERIC, st2, tr2)
    | (true, st2, tr2) =>
      match setBootMode one_shot io st2 tr2 with
      | (false, st3, tr3) => (.INSTALL_ERROR_GENERIC, st3, tr3)
      | (true, st3, tr3) =>
        match createInstallStatusFile io st3 tr3 with
        | (false, st4, tr4) => (.INSTALL_ERROR_GENERIC, st4, tr4)
        | (true, st4, tr4) => (.INSTALL_OK, st4, tr4)

/-! ### `GsiInstaller::PerformSanityChecks`
(`gsi_installer.cpp:551-584`) and
`GsiInstaller::CreateFiemapWriter` (`gsi_installer.cpp:665-697`) -/

/-- Model of `kMinimumFreeSpaceThreshold = 40` (`gsi_installer.cpp:451`). -/
def kMinimumFreeSpaceThreshold : Nat := 40

/-- Model of `kMaximumExtents = 512` (`gsi_installer.cpp:454`). -/
def kMaximumExtents : Nat := 512

/-- Model of `kDefaultUserdataSize = 2 * 1024 * 1024 * 1024` (2 GiB)
(`gsi_installer.cpp:456`, also `gsi_service.cpp` line 65 of the newest
revision). -/
def kDefaultUserdataSize : Int := 2 * 1024 * 1024 * 1024

/-- The `gsi_size_` field of `GsiInstaller`: declared `uint64_t`
(`gsi_installer.h:107`) and initialized from the `int64_t` parameter
`params.gsiSize` (`gsi_installer.cpp:461`), so a negative request is
converted two's-complement into a huge unsigned value. -/
def gsiInstallerGsiSize (gsiSize : Int) : Nat := toU64 gsiSize

/-- The `userdata_size_` field of `GsiInstaller` (`uint64_t`,
`gsi_installer.h:108`): `params.userdataSize` when nonzero, otherwise
`kDefaultUserdataSize` (`gsi_installer.cpp:464`). -/
def gsiInstallerUserdataSize (userdataSize : Int) : Nat :=
  toU64 (if userdataSize = 0 then kDefaultUserdataSize else userdataSize)

/-- Model of `GsiInstaller::PerformSanityChecks()` (`gsi_installer.cpp:551-584`).
The first guard is the verbatim translation of `if (gsi_size_ < 0)`;
since `gsi_size_` is a `uint64_t` (here a `Nat`) the comparison can
never hold.  `free_space = f_bavail * f_frsize` and
`fs_size = f_blocks * f_frsize` are `uint64_t` products; the
free-space-percentage test `((1.0 * free_space) / fs_size) * 100 < 40`
is computed in C++ over `double` and modelled here by the exact
inequality `free_space * 100 < 40 * fs_size`. -/
def performSanityChecks (gsi_size userdata_size : Nat)
    (gsiRunning statvfsFails : Bool)
    (f_bavail f_frsize f_blocks : Nat) : InstallResult :=
  if gsi_size < 0 then .INSTALL_ERROR_GENERIC
  else if gsiRunning then .INSTALL_ERROR_GENERIC
  else if statvfsFails then .INSTALL_ERROR_GENERIC
  else
    let free_space := (f_bavail * f_frsize) % U64MOD
    let fs_size := (f_blocks * f_frsize) % U64MOD
    if free_space ≤ u64add gsi_size userdata_size then
      .INSTALL_ERROR_NO_SPACE
    else if free_space * 100 < kMinimumFreeSpaceThreshold * fs_size then
      .INSTALL_ERROR_FILE_SYSTEM_CLUTTERED
    else .INSTALL_OK

/-- The error reporting of `GsiInstaller::CreateFiemapWriter`
(`gsi_installer.cpp:665-697`): a failed create/open yields
`INSTALL_ERROR_GENERIC`; a created file whose extent count exceeds
`kMaximumExtents` yields `INSTALL_ERROR_FILE_SYSTEM_CLUTTERED`. -/
def createFiemapWriterStatus (createOrOpenOk : Bool) (numExtents : Nat) :
    InstallResult :=
  if !createOrOpenOk then .INSTALL_ERROR_GENERIC
  else if kMaximumExtents < numExtents then
    .INSTALL_ERROR_FILE_SYSTEM_CLUTTERED
  else .INSTALL_OK

/-! ### On-disk DSU state (newest `gsi_service.cpp` revision) -/

/-- Modelled from the spec: the stable on-disk layout (§6).  The libgsi
header declaring these path constants is not part of the repository
snapshot; the prefix for the default slot is `dsu`. -/
def kDsuInstallStatusFile : String := "/metadata/gsi/dsu/install_status"

/-- Modelled from the spec: the one-shot presence file of §6. -/
def kDsuOneShotBootFile : String := "/metadata/gsi/dsu/one_shot"

/-- Modelled from the spec: the persisted active-directory file of §6. -/
def kDsuInstallDirFile : String := "/metadata/gsi/dsu/install_dir"

/-- Modelled from the spec: the default installation directory
`/data/gsi/dsu/` (§3). -/
def kDefaultDsuImageFolder : String := "/data/gsi/dsu/"

/-- Modelled from the spec: `install_status` value `"ok"` (§4.3). -/
def kInstallStatusOk : String := "ok"

/-- Modelled from the spec: `install_status` value `"disabled"`
(§4.3). -/
def kInstallStatusDisabled : String := "disabled"

/-- Modelled from the spec: `install_status` value `"wipe"` (§4.3). -/
def kInstallStatusWipe : String := "wipe"

/-- A snapshot of the daemon-owned files: a finite map from absolute
path to file contents. -/
abbrev Files : Type := String → Option String

/-- Contents of the file at `p`, `none` when absent (a failing
`ReadFileToString`). -/
def getFile (fs : Files) (p : String) : Option String := fs p

/-- Model of `WriteStringToFile`: create or replace the file at `p`. -/
def setFile (fs : Files) (p c : String) : Files :=
  fun q => if q = p then some c else fs q

/-- Model of `RemoveFileIfExists`. -/
def rmFile (fs : Files) (p : String) : Files :=
  fun q => if q = p then none else fs q

/-- The empty file system (used to build concrete snapshots). -/
def emptyFiles : Files := fun _ => none

/-- Model of `GsiService::GetCompleteIndication(installation)`
(newest `gsi_service.cpp` revision, lines 785-789): strips the trailing
slash, takes the last path component, and returns
`"/metadata/gsi/" + prefix + "/complete"`. -/
def getCompleteIndication (installation : String) : String :=
  let strip_slash := installation.dropRight 1
  "/metadata/gsi/" ++ ((strip_slash.splitOn "/").getLastD "") ++ "/complete"

/-- Model of `GsiService::GetInstalledImageDir()` (lines 703-711): the contents
of the install-dir file, or the default folder when it cannot be
read. -/
def getInstalledImageDir (fs : Files) : String :=
  match getFile fs kDsuInstallDirFile with
  | some dir => dir
  | none => kDefaultDsuImageFolder

/-- Model of `GsiService::IsInstallationComplete(install_dir)` (lines 791-798):
the per-install `complete` file exists and reads `"OK"`. -/
def isInstallationComplete (fs : Files) (install_dir : String) : Bool :=
  getFile fs (getCompleteIndication install_dir) == some "OK"

/-- Modelled from the spec: libgsi's `GetInstallStatus` (not in the
snapshot) reads the `install_status` file (§4.3). -/
def getInstallStatus (fs : Files) : Option String :=
  getFile fs kDsuInstallStatusFile

/-- Modelled from the spec: libgsi's `IsGsiInstalled` (not in the
snapshot) — an install exists iff the `install_status` file is present
(§8, law 1). -/
def isGsiInstalled (fs : Files) : Bool :=
  (getFile fs kDsuInstallStatusFile).isSome

/-- Modelled from the spec: libgsi's `GetBootAttempts` (not in the
snapshot) succeeds exactly when the status holds the numeric
boot-attempt counter, i.e. reads `"0"` (§4.3: only a `"0"` status is
promoted to `"ok"`). -/
def getBootAttempts (boot_key : String) : Bool := boot_key == "0"

/-- Model of `GsiService::RemoveGsiFiles(install_dir)` (lines 739-767): after
deleting the `_gsi` backing images through the external `ImageManager`
(outside this file model), removes the install-status, one-shot,
install-dir and per-install `complete` files. -/
def removeGsiFiles (install_dir : String) (fs : Files) : Files :=
  rmFile (rmFile (rmFile (rmFile fs kDsuInstallStatusFile)
    kDsuOneShotBootFile) kDsuInstallDirFile)
    (getCompleteIndication install_dir)

/-- Model of `GsiService::CleanCorruptedInstallation()` (lines 800-808): when
the active install's `complete` indication is missing or does not read
`"OK"`, remove its GSI files.  The second component records the
directories passed to `RemoveGsiFiles`. -/
def cleanCorruptedInstallation (fs : Files) : Files × List String :=
  let install_dir := getInstalledImageDir fs
  if isInstallationComplete fs install_dir then (fs, [])
  else (removeGsiFiles install_dir fs, [install_dir])

/-- Model of `GsiService::RunStartupTasks()` (lines 810-836): clean corrupt
installations, then either honor a pending `"wipe"` (when not booted
into the GSI) or promote `"0"` to `"ok"` (when booted into it and the
boot-attempt counter parses). -/
def runStartupTasks (gsiRunning : Bool) (fs : Files) :
    Files × List String :=
  let r1 := cleanCorruptedInstallation fs
  match getInstallStatus r1.1 with
  | none => r1
  | some boot_key =>
    if !gsiRunning then
      if boot_key == kInstallStatusWipe then
        let dir := getInstalledImageDir r1.1
        (removeGsiFiles dir r1.1, r1.2 ++ [dir])
      else r1
    else
      if getBootAttempts boot_key then
        (setFile r1.1 kDsuInstallStatusFile kInstallStatusOk, r1.2)
      else r1

/-! ### `GsiService::ReenableGsi` (newest `gsi_service.cpp` revision,
lines 713-737) -/

/-- Success oracles for the file writes of the re-enable path. -/
structure ReenableIo where
  writeOneShotOk : Bool
  removeOneShotOk : Bool
  writeStatusOk : Bool
deriving DecidableEq, Repr

/-- Model of `GsiService::SetBootMode(one_shot)` (lines 417-431), acting on the
DSU files: arm (`"1"`) or disarm (remove) the one-shot file. -/
def svcSetBootMode (one_shot : Bool) (io : ReenableIo) (fs : Files) :
    Bool × Files :=
  if one_shot then
    if io.writeOneShotOk then (true, setFile fs kDsuOneShotBootFile "1")
    else (false, fs)
  else if (getFile fs kDsuOneShotBootFile).isSome then
    if io.removeOneShotOk then (true, rmFile fs kDsuOneShotBootFile)
    else (false, fs)
  else (true, fs)

/-- Model of `GsiService::CreateInstallStatusFile()` (lines 409-415): writes
`"0"` to the DSU install-status file. -/
def svcCreateInstallStatusFile (io : ReenableIo) (fs : Files) :
    Bool × Files :=
  if io.writeStatusOk then (true, setFile fs kDsuInstallStatusFile "0")
  else (false, fs)

/-- Model of `GsiService::ReenableGsi(one_shot)` (lines 713-737): requires an
existing install whose status reads `"disabled"`; then — identically in
both the `IsGsiRunning()` and the normal branch — sets the boot mode
and rewrites the install-status file. -/
def reenableGsi (one_shot gsiRunning : Bool) (io : ReenableIo)
    (fs : Files) : InstallResult × Files :=
  if !(isGsiInstalled fs) then (.INSTALL_ERROR_GENERIC, fs)
  else
    match getInstallStatus fs with
    | none => (.INSTALL_ERROR_GENERIC, fs)
    | some boot_key =>
      if boot_key ≠ kInstallStatusDisabled then (.INSTALL_ERROR_GENERIC, fs)
      else
        let finish := fun (fs : Files) =>
          match svcSetBootMode one_shot io fs with
          | (false, fs2) => (InstallResult.INSTALL_ERROR_GENERIC, fs2)
          | (true, fs2) =>
            match svcCreateInstallStatusFile io fs2 with
            | (false, fs3) => (InstallResult.INSTALL_ERROR_GENERIC, fs3)
            | (true, fs3) => (InstallResult.INSTALL_OK, fs3)
        if gsiRunning then finish fs else finish fs

/-! ### Caller-privilege checks and `GsiService::openInstall`
(newest `gsi_service.cpp` revision, lines 125-144 and 619-632) -/

/-- Model of `AID_ROOT` (android_filesystem_config.h). -/
def AID_ROOT : Nat := 0

/-- Model of `AID_SYSTEM`. -/
def AID_SYSTEM : Nat := 1000

/-- Model of `AID_SHELL`. -/
def AID_SHELL : Nat := 2000

/-- Model of `GsiService::AccessLevel`. -/
inductive AccessLevel
  | System
  | SystemOrShell
deriving DecidableEq, Repr

/-- Model of `GsiService::CheckUid(level)` (lines 619-632): the allowed UIDs are
root and system, plus shell for `SystemOrShell`; any other caller gets
a typed `EX_SECURITY` error. -/
def checkUid (level : AccessLevel) (uid : Nat) : Bool :=
  let allowed_uids : List Nat :=
    match level with
    | .System => [AID_ROOT, AID_SYSTEM]
    | .SystemOrShell => [AID_ROOT, AID_SYSTEM, AID_SHELL]
  allowed_uids.contains uid

/-- A binder reply: either the typed `EX_SECURITY` error produced by
`UidSecurityError()` or a normal reply value. -/
inductive BinderReply (α : Type)
  | securityError
  | reply (value : α)
deriving DecidableEq, Repr

/-- Result of `GsiService::openInstall`: the binder reply, the on-disk
files and the `install_dir_` member afterwards. -/
structure OpenInstallOutcome where
  result : BinderReply InstallResult
  files : Files
  install_dir_field : Option String

/-- Model of `GsiService::openInstall(install_dir)` (lines 125-144):
`ENFORCE_SYSTEM` runs before the lock is taken and before any member or
file is touched; then the running-GSI check, `ValidateInstallParams`
(modelled by the `validated` oracle: the normalized directory, or
`none` on failure), removal of the stale `complete` indication, and
`SaveInstallation` (which opens the install-dir file with
`O_CREAT | O_TRUNC` and then writes, so on a failed write the file is
left truncated). -/
def openInstall (uid : Nat) (install_dir : String) (gsiRunning : Bool)
    (validated : Option String) (saveOk : Bool) (fs : Files)
    (cur : Option String) : OpenInstallOutcome :=
  if !(checkUid .System uid) then ⟨.securityError, fs, cur⟩
  else if gsiRunning then ⟨.reply .INSTALL_ERROR_GENERIC, fs, cur⟩
  else
    match validated with
    | none => ⟨.reply .INSTALL_ERROR_GENERIC, fs, some install_dir⟩
    | some dir =>
      let fs1 := rmFile fs (getCompleteIndication dir)
      if saveOk then
        ⟨.reply .INSTALL_OK, setFile fs1 kDsuInstallDirFile dir, some dir⟩
      else
        ⟨.reply .INSTALL_ERROR_GENERIC, setFile fs1 kDsuInstallDirFile "",
         some dir⟩

/-- Model of `GsiService::enableGsi(one_shot)` (newest
`gsi_service.cpp` revision, lines 257-277).  With an in-progress
install (`installer_` non-null) it requires the System tier, destroys
the installer (`installer_ = {};` — the destructor of the per-partition
installer can delete backing files but cannot change the binder reply
or the boot-status writes that follow), and then unconditionally runs
`SetBootMode(one_shot)` followed by `CreateInstallStatusFile()`: the
installer's `gsi_bytes_written_` and `size_` fields are never
consulted on this path.  With no installer it requires SystemOrShell
and delegates to `ReenableGsi`. -/
def enableGsi (uid : Nat) (one_shot : Bool) (installerPresent : Bool)
    (_gsi_bytes_written _size : Nat) (gsiRunning : Bool)
    (io : ReenableIo) (fs : Files) : BinderReply InstallResult × Files :=
  if installerPresent then
    if !(checkUid .System uid) then (.securityError, fs)
    else
      match svcSetBootMode one_shot io fs with
      | (false, fs2) => (.reply .INSTALL_ERROR_GENERIC, fs2)
      | (true, fs2) =>
        match svcCreateInstallStatusFile io fs2 with
        | (false, fs3) => (.reply .INSTALL_ERROR_GENERIC, fs3)
        | (true, fs3) => (.reply .INSTALL_OK, fs3)
  else
    if !(checkUid .SystemOrShell uid) then (.securityError, fs)
    else
      let r := reenableGsi one_shot gsiRunning io fs
      (.reply r.1, r.2)

/-! ### `GsiService::createPartition` (newest `gsi_service.cpp`
revision, lines 159-191) -/

/-- Model of `LP_SECTOR_SIZE = 512` (liblp; spec glossary). -/
def LP_SECTOR_SIZE : Nat := 512

/-- Model of `GsiService::createPartition(name, size, readOnly)`: requires a
prior `openInstall` (`install_dir_` nonempty), requires `size` to be a
multiple of `LP_SECTOR_SIZE`, defaults `size == 0 && name == "userdata"`
to `kDefaultUserdataSize`, and hands the resulting size to a fresh
`PartitionInstaller`.  The second component is the size passed to the
installer's constructor (`none` when no installer was created); the
installer's `StartInstall` outcome is the `startInstall` oracle. -/
def createPartition (uid : Nat) (install_dir : String) (name : String)
    (size : Int) (startInstall : InstallResult) :
    BinderReply InstallResult × Option Int :=
  if !(checkUid .System uid) then (.securityError, none)
  else if install_dir = "" then (.reply .INSTALL_ERROR_GENERIC, none)
  else if size % (LP_SECTOR_SIZE : Int) ≠ 0 then
    (.reply .INSTALL_ERROR_GENERIC, none)
  else
    let size2 := if size = 0 ∧ name = "userdata" then kDefaultUserdataSize
      else size
    (.reply startInstall, some size2)

/-- The `size_` field of the per-partition installer
(`gsi_installer.cpp:55` of the first revision in the file):
`params.size` when nonzero, otherwise `kDefaultUserdataSize`. -/
def gsiInstallerSize (paramsSize : Int) : Int :=
  if paramsSize ≠ 0 then paramsSize else kDefaultUserdataSize

/-! ### `GsiInstaller::CommitGsiChunk(int stream_fd, int64_t bytes)`
(`gsi_installer.cpp:759-798`) -/

/-- One iteration's environment: the byte count the blocking `read`
returns (it is further capped at the requested length; `0` means end of
stream), the service abort flag and the device-write outcome observed
by the nested `CommitGsiChunk(data, rv)`. -/
structure StreamEvent where
  rv : Nat
  shouldAbort : Bool
  writeOk : Bool
deriving DecidableEq, Repr

/-- Result of a streaming commit: the boolean return, the final
`gsi_bytes_written_`, the final progress record, the successive values
stored into `progress_.bytes_processed` during the call, and the
numbers of stream reads and device-write attempts. -/
structure StreamCommitResult where
  ret : Bool
  written : Nat
  progress : GsiProgress
  procTrace : List Int
  streamReads : Nat
  deviceWrites : Nat
deriving DecidableEq, Repr

/-- The `while (remaining)` loop of the streaming commit
(`gsi_installer.cpp:771-795`).  `remaining` is a `uint64_t`;
`new_progress` is computed as
`int new_progress = ((gsi_size_ - remaining) * 1000) / gsi_size_;`
in `uint64_t` arithmetic truncated into a 32-bit `int`, and is compared
against the local `progress` variable, which is initialized to `-1` and
— exactly as in the source — never reassigned.  A progress update calls
`UpdateProgress(STATUS_WORKING, gsi_size_ - remaining)` whose `int64_t`
parameter receives the sign-reinterpreted `uint64_t` difference. -/
def streamLoop (size block : Nat) (evs : List StreamEvent)
    (written remaining : Nat) (progressVar : Int) (p : GsiProgress) :
    StreamCommitResult :=
  if remaining = 0 then ⟨true, written, p, [], 0, 0⟩
  else
    match evs with
    | [] => ⟨false, written, p, [], 1, 0⟩
    | ev :: rest =>
      let max_to_read := min block remaining
      let rv := min ev.rv max_to_read
      if rv = 0 then ⟨false, written, p, [], 1, 0⟩
      else
        let c := commitGsiChunkData size written rv ev.shouldAbort ev.writeOk
        if !c.success then
          ⟨false, written, p, [], 1, if c.wrote then 1 else 0⟩
        else
          let remaining2 := remaining - rv
          let new_progress := toI32 ((u64sub size remaining2 * 1000) % U64MOD / size)
          if new_progress ≠ progressVar then
            let p2 := updateProgress .STATUS_WORKING
              (toI64 (u64sub size remaining2)) p
            let r := streamLoop size block rest c.written remaining2
              progressVar p2
            ⟨r.ret, r.written, r.progress,
             p2.bytes_processed :: r.procTrace, r.streamReads + 1,
             r.deviceWrites + 1⟩
          else
            let r := streamLoop size block rest c.written remaining2
              progressVar p
            ⟨r.ret, r.written, r.progress, r.procTrace, r.streamReads + 1,
             r.deviceWrites + 1⟩

/-- Model of `GsiInstaller::CommitGsiChunk(stream_fd, bytes)`
(`gsi_installer.cpp:759-798`): `StartAsyncOperation("write gsi",
gsi_size_)` first, then the negative-`bytes` check, the read loop, and
on success `UpdateProgress(STATUS_COMPLETE, gsi_size_)`. -/
def commitGsiChunkFromStream (size block written : Nat) (bytes : Int)
    (evs : List StreamEvent) (pPrev : GsiProgress) : StreamCommitResult :=
  let p0 := startAsyncOperation "write gsi" (toI64 size) pPrev
  if bytes < 0 then ⟨false, written, p0, [0], 0, 0⟩
  else
    let r := streamLoop size block evs written (toU64 bytes) (-1) p0
    if r.ret then
      let p2 := updateProgress .STATUS_COMPLETE (toI64 size) r.progress
      ⟨true, r.written, p2, 0 :: r.procTrace ++ [p2.bytes_processed],
       r.streamReads, r.deviceWrites⟩
    else
      ⟨false, r.written, r.progress, 0 :: r.procTrace, r.streamReads,
       r.deviceWrites⟩

/-! ### Arithmetic helper lemmas -/

lemma U64MOD_eq : U64MOD = 18446744073709551616 := by norm_num [U64MOD]

lemma u64sub_eq_sub {a b : Nat} (h : b ≤ a) (ha : a < U64MOD) :
    u64sub a b = a - b := by
  have ha' := U64MOD_eq ▸ ha
  simp only [u64sub, U64MOD_eq]
  omega

lemma u64add_eq_add {a b : Nat} (h : a + b < U64MOD) :
    u64add a b = a + b := by
  have h' := U64MOD_eq ▸ h
  simp only [u64add, U64MOD_eq]
  omega

lemma toI64_of_lt {u : Nat} (h : u < 2 ^ 63) : toI64 u = (u : Int) := by
  have h64 : u < U64MOD := lt_of_lt_of_le h (by norm_num [U64MOD])
  unfold toI64
  rw [Nat.mod_eq_of_lt h64, if_pos h]

/-! ### File-map helper lemmas -/

lemma getFile_setFile (fs : Files) (p c q : String) :
    getFile (setFile fs p c) q = if q = p then some c else getFile fs q :=
  rfl

lemma getFile_rmFile (fs : Files) (p q : String) :
    getFile (rmFile fs p) q = if q = p then none else getFile fs q :=
  rfl

/-! ### C1 -/

/-- C1 counterexample: the claim fails on the cited
`GsiService::enableGsi` path.  With an in-progress install whose
installer has written 0 of 8192 requested bytes, `enableGsi(false)`
from the system UID still returns `INSTALL_OK` and writes the
install-status boot indicator `"0"`: the newest service revision
finalizes without consulting `gsi_bytes_written_` at all, so finalize
neither requires `bytes_written == size` nor returns `GENERIC_ERROR`
on a mismatch. -/
theorem enableGsi_ok_despite_incomplete_image :
    (enableGsi 1000 false true 0 8192 false ⟨true, true, true⟩
      emptyFiles).1 = .reply .INSTALL_OK ∧
    getFile (enableGsi 1000 false true 0 8192 false ⟨true, true, true⟩
      emptyFiles).2 kDsuInstallStatusFile = some "0" := by
  constructor
  · decide
  · decide

/-- C1 (amended): the installer-side finalize implementation
`GsiInstaller::SetGsiBootable` returns `INSTALL_OK` only when
`gsi_bytes_written_` equals the requested image size; whenever they
differ it returns `INSTALL_ERROR_GENERIC`, leaves every boot-status
file (in particular the install-status boot indicator) untouched, and
performs no file operation at all.  The `enableGsi` entry point of the
newest service revision, however, writes the boot-status files without
this check (see the C1 counterexample). -/
theorem setGsiBootable_requires_full_image (size written : Nat)
    (one_shot : Bool) (dir : String) (io : FinalizeIo) (st : BootFiles) :
    ((setGsiBootable size written one_shot dir io st).1 = .INSTALL_OK →
      written = size) ∧
    (written ≠ size →
      setGsiBootable size written one_shot dir io st =
        (.INSTALL_ERROR_GENERIC, st, [])) := by
  constructor
  · intro hok
    by_contra hne
    simp [setGsiBootable, hne] at hok
  · intro hne
    simp [setGsiBootable, hne]

/-- C1 witness: at `size = 10`, `written = 7` the call returns
`INSTALL_ERROR_GENERIC` with the files unchanged. -/
theorem setGsiBootable_requires_full_image_witness :
    setGsiBootable 10 7 false "/data/gsi/dsu/"
        ⟨true, true, true, true, true, true, true⟩
        ⟨none, false, none, none⟩ =
      (.INSTALL_ERROR_GENERIC, ⟨none, false, none, none⟩, []) :=
  (setGsiBootable_requires_full_image 10 7 false "/data/gsi/dsu/"
      ⟨true, true, true, true, true, true, true⟩
      ⟨none, false, none, none⟩).2 (by decide)

/-! ### C2 -/

/-- C2: whenever finalize with `one_shot = false` returns `INSTALL_OK`,
afterwards the install-status file contains `"0"`, the one-shot file is
absent, the install-dir file holds the session's installation
directory, and the very last file operation of the call is the write of
the install-status file (the actual boot indicator). -/
theorem setGsiBootable_ok_final_state (size written : Nat) (dir : String)
    (io : FinalizeIo) (st : BootFiles)
    (h : (setGsiBootable size written false dir io st).1 = .INSTALL_OK) :
    (setGsiBootable size written false dir io st).2.1.install_status_file =
        some "0" ∧
    (setGsiBootable size written false dir io st).2.1.one_shot_file = none ∧
    (setGsiBootable size written false dir io st).2.1.install_dir_file =
        some dir ∧
    ((setGsiBootable size written false dir io st).2.2).getLast? =
        some .writeInstallStatus := by
  by_cases hw : written = size
  · subst hw
    obtain ⟨f, pin, wd, wm, wo, ro, ws⟩ := io
    obtain ⟨d0, m0, o0, s0⟩ := st
    cases f <;> cases pin <;> cases wd <;> cases wm <;> cases ro <;>
      cases ws <;> cases o0 <;>
      simp_all [setGsiBootable, createMetadataFile, setBootMode,
        createInstallStatusFile]
  · simp [setGsiBootable, hw] at h

/-- C2 witness: a concrete successful finalize with `one_shot = false`
starting from files where a one-shot flag was previously armed. -/
theorem setGsiBootable_ok_final_state_witness :
    (setGsiBootable 4 4 false "/data/gsi/dsu/"
        ⟨true, true, true, true, true, true, true⟩
        ⟨none, false, some "1", none⟩).2.1.install_status_file = some "0" ∧
    (setGsiBootable 4 4 false "/data/gsi/dsu/"
        ⟨true, true, true, true, true, true, true⟩
        ⟨none, false, some "1", none⟩).2.1.one_shot_file = none ∧
    (setGsiBootable 4 4 false "/data/gsi/dsu/"
        ⟨true, true, true, true, true, true, true⟩
        ⟨none, false, some "1", none⟩).2.1.install_dir_file =
        some "/data/gsi/dsu/" ∧
    ((setGsiBootable 4 4 false "/data/gsi/dsu/"
        ⟨true, true, true, true, true, true, true⟩
        ⟨none, false, some "1", none⟩).2.2).getLast? =
        some .writeInstallStatus :=
  setGsiBootable_ok_final_state 4 4 "/data/gsi/dsu/"
    ⟨true, true, true, true, true, true, true⟩
    ⟨none, false, some "1", none⟩ (by decide)

/-! ### C3 -/

/-- C3: `CommitGsiChunk(data, bytes)` rejects any chunk that would
exceed the image size — returning `false`, leaving `gsi_bytes_written_`
unchanged and issuing no device write — and consequently every chunk
commit preserves the invariant `gsi_bytes_written_ ≤ gsi_size_`. -/
theorem commitGsiChunkData_respects_size (size written bytes : Nat)
    (shouldAbort writeOk : Bool) (hw : written ≤ size) (hs : size < U64MOD) :
    (size < written + bytes →
      commitGsiChunkData size written bytes shouldAbort writeOk =
        ⟨false, written, false⟩) ∧
    (commitGsiChunkData size written bytes shouldAbort writeOk).written ≤
      size := by
  have hsub : u64sub size written = size - written := u64sub_eq_sub hw hs
  constructor
  · intro hover
    have : u64sub size written < bytes := by omega
    simp [commitGsiChunkData, this]
  · by_cases hover : u64sub size written < bytes
    · simp [commitGsiChunkData, hover, hw]
    · have hle : written + bytes ≤ size := by omega
      have hadd : u64add written bytes = written + bytes :=
        u64add_eq_add (by omega)
      unfold commitGsiChunkData
      simp only [hover, if_false]
      split
      · exact hw
      · split
        · exact hw
        · simpa [hadd] using hle

/-- C3 witness: with `size = 8`, `written = 5` a 4-byte chunk is
rejected without changing the counter. -/
theorem commitGsiChunkData_respects_size_witness :
    commitGsiChunkData 8 5 4 false true = ⟨false, 5, false⟩ ∧
    (commitGsiChunkData 8 5 4 false true).written ≤ 8 :=
  ⟨(commitGsiChunkData_respects_size 8 5 4 false true (by decide)
      (by norm_num [U64MOD])).1 (by decide),
   (commitGsiChunkData_respects_size 8 5 4 false true (by decide)
      (by norm_num [U64MOD])).2⟩

/-! ### C4 -/

/-- C4: the negative-size sanity check is dead code.  `gsi_size_` is a
`uint64_t`, so the requested size `-1` is stored as `2^64 - 1` and
`if (gsi_size_ < 0)` cannot fire; with the default 2 GiB userdata size
the wrapped sum makes the free-space comparison return
`INSTALL_ERROR_NO_SPACE` — not the `INSTALL_ERROR_GENERIC` the spec
promises for a negative size.  (Concrete filesystem: 1 GiB free out of
2 GiB, 1024-byte fragments.) -/
theorem performSanityChecks_negative_size_not_generic :
    performSanityChecks (gsiInstallerGsiSize (-1))
        (gsiInstallerUserdataSize 0) false false 1048576 1024 2097152 =
      .INSTALL_ERROR_NO_SPACE ∧
    performSanityChecks (gsiInstallerGsiSize (-1))
        (gsiInstallerUserdataSize 0) false false 1048576 1024 2097152 ≠
      .INSTALL_ERROR_GENERIC := by
  constructor
  · decide
  · decide

/-! ### C5 -/

/-- C5: `RunStartupTasks` calls `RemoveGsiFiles` on the active install
directory whenever its `complete` indication file is missing or does
not read `"OK"`, and likewise whenever the device is not booted into
the installed image and `install_status` reads `"wipe"`. -/
theorem runStartupTasks_removes_gsi_files (gsiRunning : Bool)
    (fs : Files)
    (h : isInstallationComplete fs (getInstalledImageDir fs) = false ∨
         (gsiRunning = false ∧
           getInstallStatus fs = some kInstallStatusWipe)) :
    getInstalledImageDir fs ∈ (runStartupTasks gsiRunning fs).2 := by
  by_cases hc : isInstallationComplete fs (getInstalledImageDir fs) = true
  · rcases h with h | ⟨hrun, hst⟩
    · rw [hc] at h
      exact absurd h (by simp)
    · subst hrun
      simp [runStartupTasks, cleanCorruptedInstallation, hc, hst,
        kInstallStatusWipe]
  · have hc' : isInstallationComplete fs (getInstalledImageDir fs) = false := by
      simpa using hc
    have h1 : cleanCorruptedInstallation fs =
        (removeGsiFiles (getInstalledImageDir fs) fs,
         [getInstalledImageDir fs]) := by
      simp [cleanCorruptedInstallation, hc']
    unfold runStartupTasks
    rw [h1]
    cases hgs : getInstallStatus (removeGsiFiles (getInstalledImageDir fs) fs) with
    | none => simp [hgs]
    | some bk =>
      cases gsiRunning <;>
        by_cases hw : (bk == kInstallStatusWipe) = true <;>
        by_cases hb : getBootAttempts bk = true <;>
        simp_all

/-- C5 witness: an empty metadata directory (no `complete` file) forces
removal of the default install directory. -/
theorem runStartupTasks_removes_gsi_files_witness :
    getInstalledImageDir emptyFiles ∈
      (runStartupTasks false emptyFiles).2 :=
  runStartupTasks_removes_gsi_files false emptyFiles
    (Or.inl (by decide))

/-! ### C6 -/

/-- C6: `ReenableGsi` can return `INSTALL_OK` only when an install
exists and `install_status` reads `"disabled"`; in every other state it
returns `INSTALL_ERROR_GENERIC` with the files untouched; and on
success it has rewritten `install_status` to `"0"` and armed
(`one_shot`) or disarmed the one-shot file. -/
theorem reenableGsi_spec (one_shot gsiRunning : Bool) (io : ReenableIo)
    (fs : Files) :
    ((reenableGsi one_shot gsiRunning io fs).1 = .INSTALL_OK →
      isGsiInstalled fs = true ∧
      getInstallStatus fs = some kInstallStatusDisabled) ∧
    ((isGsiInstalled fs = false ∨
        getInstallStatus fs ≠ some kInstallStatusDisabled) →
      reenableGsi one_shot gsiRunning io fs = (.INSTALL_ERROR_GENERIC, fs)) ∧
    ((reenableGsi one_shot gsiRunning io fs).1 = .INSTALL_OK →
      getFile (reenableGsi one_shot gsiRunning io fs).2
          kDsuInstallStatusFile = some "0" ∧
      getFile (reenableGsi one_shot gsiRunning io fs).2
          kDsuOneShotBootFile =
        (if one_shot then some "1" else none)) := by
  have hne : kDsuInstallStatusFile ≠ kDsuOneShotBootFile := by decide
  have hne' : kDsuOneShotBootFile ≠ kDsuInstallStatusFile := by decide
  by_cases hi : isGsiInstalled fs = true
  · cases hgs : getInstallStatus fs with
    | none =>
      have hfalse : isGsiInstalled fs = false := by
        simp only [isGsiInstalled]
        simp only [getInstallStatus] at hgs
        simp [hgs]
      rw [hfalse] at hi
      exact absurd hi (by decide)
    | some bk =>
      by_cases hd : bk = kInstallStatusDisabled
      · subst hd
        obtain ⟨w1, r1, s1⟩ := io
        refine ⟨fun _ => ⟨hi, rfl⟩, fun hbad => ?_, fun hok => ?_⟩
        · rcases hbad with hbad | hbad
          · rw [hbad] at hi
            exact absurd hi (by decide)
          · exact absurd rfl hbad
        · cases one_shot <;> cases w1 <;> cases r1 <;> cases s1 <;>
            cases hone : getFile fs kDsuOneShotBootFile <;>
            cases gsiRunning <;>
            simp_all [reenableGsi, svcSetBootMode, svcCreateInstallStatusFile,
              hgs, setFile, rmFile, hne, hne', getInstallStatus, getFile]
      · refine ⟨fun hok => ?_, fun _ => ?_, fun hok => ?_⟩ <;>
          simp_all [reenableGsi, hgs, hi, hd]
  · have hi' : isGsiInstalled fs = false := by simpa using hi
    refine ⟨fun hok => ?_, fun _ => ?_, fun hok => ?_⟩ <;>
      simp_all [reenableGsi, hi']

/-- C6 witness: re-enabling a disabled install with `one_shot = true`
rewrites the status to `"0"` and arms the one-shot file. -/
theorem reenableGsi_spec_witness :
    getFile (reenableGsi true false ⟨true, true, true⟩
        (setFile emptyFiles kDsuInstallStatusFile "disabled")).2
      kDsuInstallStatusFile = some "0" ∧
    getFile (reenableGsi true false ⟨true, true, true⟩
        (setFile emptyFiles kDsuInstallStatusFile "disabled")).2
      kDsuOneShotBootFile = (if true then some "1" else none) :=
  (reenableGsi_spec true false ⟨true, true, true⟩
      (setFile emptyFiles kDsuInstallStatusFile "disabled")).2.2
    (by decide)

/-! ### C7 -/

/-- C7: a caller whose UID is neither root nor system receives the
typed security error from `openInstall` before the lock is taken and
before any member or file is touched: the file system and the
`install_dir_` member are returned unchanged. -/
theorem openInstall_unauthorized (uid : Nat) (install_dir : String)
    (gsiRunning : Bool) (validated : Option String) (saveOk : Bool)
    (fs : Files) (cur : Option String)
    (h1 : uid ≠ AID_ROOT) (h2 : uid ≠ AID_SYSTEM) :
    openInstall uid install_dir gsiRunning validated saveOk fs cur =
      ⟨.securityError, fs, cur⟩ := by
  have hc : checkUid .System uid = false := by
    simp [checkUid, AID_ROOT, AID_SYSTEM]
    exact ⟨h1, h2⟩
  simp [openInstall, hc]

/-- C7 witness: the shell UID (2000) is rejected without touching
anything. -/
theorem openInstall_unauthorized_witness :
    openInstall 2000 "/data/gsi/dsu/" false (some "/data/gsi/dsu/") true
        emptyFiles none =
      ⟨.securityError, emptyFiles, none⟩ :=
  openInstall_unauthorized 2000 "/data/gsi/dsu/" false
    (some "/data/gsi/dsu/") true emptyFiles none (by decide) (by decide)

/-! ### C9 -/

/-- C9: `createPartition` with `size == 0` and `name == "userdata"`
hands the installer exactly the default size
`kDefaultUserdataSize = 2147483648` bytes (2 GiB), and the installer's
constructor keeps that size. -/
theorem createPartition_userdata_default (uid : Nat)
    (install_dir : String) (startInstall : InstallResult)
    (h1 : checkUid .System uid = true) (h2 : install_dir ≠ "") :
    (createPartition uid install_dir "userdata" 0 startInstall).2 =
      some kDefaultUserdataSize ∧
    kDefaultUserdataSize = 2147483648 ∧
    gsiInstallerSize kDefaultUserdataSize = 2147483648 := by
  refine ⟨?_, by norm_num [kDefaultUserdataSize],
    by norm_num [gsiInstallerSize, kDefaultUserdataSize]⟩
  simp [createPartition, h1, h2]

/-- C9 witness: the system UID with the default install directory. -/
theorem createPartition_userdata_default_witness :
    (createPartition 1000 "/data/gsi/dsu/" "userdata" 0
        .INSTALL_OK).2 = some kDefaultUserdataSize ∧
    kDefaultUserdataSize = 2147483648 ∧
    gsiInstallerSize kDefaultUserdataSize = 2147483648 :=
  createPartition_userdata_default 1000 "/data/gsi/dsu/" .INSTALL_OK
    (by decide) (by decide)

/-! ### C10 -/

/-- C10: a streaming commit of `bytes == 0` returns `true`, performs no
stream read and no device write, leaves `gsi_bytes_written_` unchanged,
and leaves the shared progress record at `STATUS_COMPLETE` with the
processed count forced equal to the total. -/
lemma streamLoop_remaining_zero (size block written : Nat) (pv : Int)
    (p : GsiProgress) (evs : List StreamEvent) :
    streamLoop size block evs written 0 pv p = ⟨true, written, p, [], 0, 0⟩ := by
  cases evs <;> simp [streamLoop]

theorem commitFromStream_zero_bytes (size block written : Nat)
    (evs : List StreamEvent) (pPrev : GsiProgress) :
    (commitGsiChunkFromStream size block written 0 evs pPrev).ret = true ∧
    (commitGsiChunkFromStream size block written 0 evs pPrev).streamReads
        = 0 ∧
    (commitGsiChunkFromStream size block written 0 evs pPrev).deviceWrites
        = 0 ∧
    (commitGsiChunkFromStream size block written 0 evs pPrev).written
        = written ∧
    (commitGsiChunkFromStream size block written 0 evs
        pPrev).progress.status = .STATUS_COMPLETE ∧
    (commitGsiChunkFromStream size block written 0 evs
        pPrev).progress.bytes_processed =
      (commitGsiChunkFromStream size block written 0 evs
        pPrev).progress.total_bytes := by
  have h0 : toU64 0 = 0 := rfl
  simp [commitGsiChunkFromStream, h0, streamLoop_remaining_zero,
    updateProgress, startAsyncOperation]

/-! ### C8 -/

/-- C8 counterexample: a single `CommitGsiChunk(stream_fd, bytes)` call
with `bytes = 16384` against an image of `gsi_size_ = 8192` writes the
processed values `0, -4096, 0`: after the first block the `uint64_t`
difference `gsi_size_ - remaining` wraps and is stored through the
`int64_t` parameter of `UpdateProgress` as `-4096`, so the sequence is
not non-decreasing. -/
theorem commitFromStream_progress_not_monotone :
    (commitGsiChunkFromStream 8192 4096 0 16384
        [⟨4096, false, true⟩, ⟨4096, false, true⟩, ⟨4096, false, true⟩]
        ⟨"", .STATUS_NO_OPERATION, 0, 0⟩).procTrace = [0, -4096, 0] ∧
    ¬ List.Chain' (fun a b => a ≤ b)
        (commitGsiChunkFromStream 8192 4096 0 16384
          [⟨4096, false, true⟩, ⟨4096, false, true⟩, ⟨4096, false, true⟩]
          ⟨"", .STATUS_NO_OPERATION, 0, 0⟩).procTrace := by
  have h : (commitGsiChunkFromStream 8192 4096 0 16384
      [⟨4096, false, true⟩, ⟨4096, false, true⟩, ⟨4096, false, true⟩]
      ⟨"", .STATUS_NO_OPERATION, 0, 0⟩).procTrace = [0, -4096, 0] := by
    decide
  rw [h]
  refine ⟨rfl, ?_⟩
  norm_num [List.chain'_cons]

lemma updateProgress_total_bytes (s : ProgressStatus) (bp : Int)
    (p : GsiProgress) :
    (updateProgress s bp p).total_bytes = p.total_bytes := by
  unfold updateProgress
  split <;> rfl

lemma updateProgress_working_processed (bp : Int) (p : GsiProgress) :
    (updateProgress .STATUS_WORKING bp p).bytes_processed = bp := by
  unfold updateProgress
  rw [if_neg (by decide)]

lemma chain'_append_last (l : List Int) (c : Int)
    (h : List.Chain' (fun a b => a ≤ b) l) (hall : ∀ x ∈ l, x ≤ c) :
    List.Chain' (fun a b => a ≤ b) (l ++ [c]) := by
  induction l with
  | nil => simp
  | cons a t ih =>
    cases t with
    | nil =>
      simp only [List.cons_append, List.nil_append]
      exact List.chain'_cons.mpr ⟨hall a (by simp), List.chain'_singleton c⟩
    | cons b t' =>
      rw [List.chain'_cons] at h
      have hrec := ih h.2 (fun x hx => hall x (List.mem_cons_of_mem _ hx))
      rw [List.cons_append] at hrec ⊢
      rw [List.cons_append]
      exact List.chain'_cons.mpr ⟨h.1, hrec⟩

/-- Invariant of the streaming-commit loop: with `remaining ≤ size` and
`size < 2^63`, the total is never modified, every processed value it
emits lies between `size - remaining` and `size`, and the emitted
sequence is non-decreasing. -/
lemma streamLoop_procTrace_bounds (size block : Nat)
    (hsize : size < 2 ^ 63) (evs : List StreamEvent) :
    ∀ (written remaining : Nat) (pv : Int) (p : GsiProgress),
      remaining ≤ size →
      ((streamLoop size block evs written remaining pv p).progress.total_bytes
          = p.total_bytes) ∧
      (∀ x ∈ (streamLoop size block evs written remaining pv p).procTrace,
          ((size - remaining : Nat) : Int) ≤ x ∧ x ≤ (size : Int)) ∧
      List.Chain' (fun a b => a ≤ b)
        (streamLoop size block evs written remaining pv p).procTrace := by
  have hU : size < U64MOD := lt_of_lt_of_le hsize (by norm_num [U64MOD])
  induction evs with
  | nil =>
    intro written remaining pv p hrem
    by_cases h0 : remaining = 0 <;> simp [streamLoop, h0]
  | cons ev rest ih =>
    intro written remaining pv p hrem
    by_cases h0 : remaining = 0
    · simp [streamLoop, h0]
    · simp only [streamLoop, if_neg h0]
      by_cases hrv : min ev.rv (min block remaining) = 0
      · simp [hrv]
      · simp only [hrv, if_false]
        set rv := min ev.rv (min block remaining) with hrvdef
        set c := commitGsiChunkData size written rv ev.shouldAbort ev.writeOk
          with hcdef
        by_cases hcs : c.success = true
        · simp only [hcs, Bool.not_true, Bool.false_eq_true, if_false]
          have hrvle : rv ≤ remaining :=
            le_trans (min_le_right _ _) (min_le_right _ _)
          have hr2 : remaining - rv ≤ size :=
            le_trans (Nat.sub_le _ _) hrem
          have hsub : u64sub size (remaining - rv) = size - (remaining - rv) :=
            u64sub_eq_sub hr2 hU
          have hlt : size - (remaining - rv) < 2 ^ 63 :=
            lt_of_le_of_lt (Nat.sub_le _ _) hsize
          have he : toI64 (u64sub size (remaining - rv)) =
              ((size - (remaining - rv) : Nat) : Int) := by
            rw [hsub]
            exact toI64_of_lt hlt
          have hmono : ((size - remaining : Nat) : Int) ≤
              ((size - (remaining - rv) : Nat) : Int) := by
            exact_mod_cast Nat.sub_le_sub_left (Nat.sub_le _ _) size
          have hup : ((size - (remaining - rv) : Nat) : Int) ≤ (size : Int) := by
            exact_mod_cast Nat.sub_le _ _
          by_cases hnp :
              toI32 ((u64sub size (remaining - rv) * 1000) % U64MOD / size) ≠ pv
          · simp only [hnp, if_pos, ne_eq, not_false_eq_true, if_true]
            obtain ⟨iht, ihb, ihc⟩ := ih c.written (remaining - rv) pv
              (updateProgress .STATUS_WORKING
                (toI64 (u64sub size (remaining - rv))) p) hr2
            refine ⟨?_, ?_, ?_⟩
            · rw [iht, updateProgress_total_bytes]
            · intro x hx
              rw [List.mem_cons] at hx
              rcases hx with hx | hx
              · subst hx
                rw [updateProgress_working_processed, he]
                exact ⟨hmono, hup⟩
              · obtain ⟨hb1, hb2⟩ := ihb x hx
                exact ⟨le_trans hmono hb1, hb2⟩
            · rw [List.chain'_cons']
              refine ⟨?_, ihc⟩
              intro y hy
              have hymem := List.mem_of_mem_head? hy
              obtain ⟨hb1, _⟩ := ihb y hymem
              rw [updateProgress_working_processed, he]
              exact hb1
          · simp only [hnp, if_neg, ne_eq, not_true_eq_false,
              not_false_eq_true, if_false]
            obtain ⟨iht, ihb, ihc⟩ := ih c.written (remaining - rv) pv p hr2
            refine ⟨iht, ?_, ihc⟩
            intro x hx
            obtain ⟨hb1, hb2⟩ := ihb x hx
            exact ⟨le_trans hmono hb1, hb2⟩
        · simp [hcs]

lemma updateProgress_complete_processed (bp : Int) (p : GsiProgress) :
    (updateProgress .STATUS_COMPLETE bp p).bytes_processed = p.total_bytes := by
  unfold updateProgress
  rw [if_pos rfl]

/-- C8 (amended): during a single `CommitGsiChunk(stream_fd, bytes)`
call where the image size is a representable non-negative `int64`
(`gsi_size_ < 2^63`) and the requested byte count does not exceed it
(`bytes ≤ gsi_size_`, negative requests included), the successive
values written to the progress record's processed field are
non-decreasing and never exceed the record's total field. -/
theorem commitFromStream_progress_monotone (size block written : Nat)
    (bytes : Int) (evs : List StreamEvent) (pPrev : GsiProgress)
    (hbs : bytes ≤ (size : Int)) (hsize : size < 2 ^ 63) :
    List.Chain' (fun a b => a ≤ b)
      (commitGsiChunkFromStream size block written bytes evs
        pPrev).procTrace ∧
    ∀ x ∈ (commitGsiChunkFromStream size block written bytes evs
        pPrev).procTrace,
      x ≤ (commitGsiChunkFromStream size block written bytes evs
        pPrev).progress.total_bytes := by
  have htot : (startAsyncOperation "write gsi" (toI64 size)
      pPrev).total_bytes = (size : Int) := by
    simp [startAsyncOperation, toI64_of_lt hsize]
  by_cases hneg : bytes < 0
  case pos =>
    simp only [commitGsiChunkFromStream, if_pos hneg]
    constructor
    · exact List.chain'_singleton 0
    · intro x hx
      have hx0 : x ∈ [(0 : Int)] := hx
      rw [List.mem_singleton] at hx0
      subst hx0
      have h0t : (0 : Int) ≤ (startAsyncOperation "write gsi" (toI64 size)
          pPrev).total_bytes := by
        rw [htot]
        exact Int.ofNat_nonneg size
      exact h0t
  case neg =>
  have hb0 : 0 ≤ bytes := le_of_not_lt hneg
  have hnneg : ¬ bytes < 0 := hneg
  have hbu : bytes < (U64MOD : Int) := by
    refine lt_of_le_of_lt hbs ?_
    have h1 : (size : Int) < ((2 : Int) ^ 63) := by exact_mod_cast hsize
    refine lt_of_lt_of_le h1 ?_
    norm_num [U64MOD]
  have hmod : toU64 bytes = bytes.toNat := by
    unfold toU64
    rw [Int.emod_eq_of_lt hb0 hbu]
  have hrem : bytes.toNat ≤ size := Int.toNat_le.mpr hbs
  obtain ⟨lt, lb, lc⟩ := streamLoop_procTrace_bounds size block hsize evs
    written bytes.toNat (-1)
    (startAsyncOperation "write gsi" (toI64 size) pPrev) hrem
  have hlow : ∀ y ∈ (streamLoop size block evs written bytes.toNat (-1)
      (startAsyncOperation "write gsi" (toI64 size) pPrev)).procTrace,
      (0 : Int) ≤ y := by
    intro y hy
    exact le_trans (Int.ofNat_nonneg _) (lb y hy).1
  have hchain0 : List.Chain' (fun a b => a ≤ b)
      (0 :: (streamLoop size block evs written bytes.toNat (-1)
        (startAsyncOperation "write gsi" (toI64 size) pPrev)).procTrace) := by
    rw [List.chain'_cons']
    exact ⟨fun y hy => hlow y (List.mem_of_mem_head? hy), lc⟩
  have hup : ∀ x ∈ (0 :: (streamLoop size block evs written bytes.toNat (-1)
      (startAsyncOperation "write gsi" (toI64 size) pPrev)).procTrace),
      x ≤ (size : Int) := by
    intro x hx
    rw [List.mem_cons] at hx
    rcases hx with hx | hx
    · subst hx
      exact Int.ofNat_nonneg _
    · exact (lb x hx).2
  simp only [commitGsiChunkFromStream, if_neg hnneg, hmod]
  by_cases hret : (streamLoop size block evs written bytes.toNat (-1)
      (startAsyncOperation "write gsi" (toI64 size) pPrev)).ret = true
  · simp only [hret, if_true]
    have hproc : (updateProgress .STATUS_COMPLETE (toI64 size)
        (streamLoop size block evs written bytes.toNat (-1)
          (startAsyncOperation "write gsi" (toI64 size)
            pPrev)).progress).bytes_processed = (size : Int) := by
      rw [updateProgress_complete_processed, lt, htot]
    have htot2 : (updateProgress .STATUS_COMPLETE (toI64 size)
        (streamLoop size block evs written bytes.toNat (-1)
          (startAsyncOperation "write gsi" (toI64 size)
            pPrev)).progress).total_bytes = (size : Int) := by
      rw [updateProgress_total_bytes, lt, htot]
    constructor
    · rw [hproc]
      exact chain'_append_last _ _ hchain0 hup
    · intro x hx
      rw [hproc] at hx
      rw [List.mem_append] at hx
      rcases hx with hx | hx
      · exact le_of_le_of_eq (hup x hx) htot2.symm
      · rw [List.mem_singleton] at hx
        subst hx
        exact le_of_eq htot2.symm
  · simp only [hret, if_false]
    constructor
    · exact hchain0
    · intro x hx
      refine le_trans (hup x hx) ?_
      exact le_of_eq (lt.trans htot).symm

/-- C8 (amended) witness: a two-block stream filling an 8192-byte image
exactly yields a non-decreasing processed sequence. -/
theorem commitFromStream_progress_monotone_witness :
    List.Chain' (fun a b => a ≤ b)
      (commitGsiChunkFromStream 8192 4096 0 8192
        [⟨4096, false, true⟩, ⟨4096, false, true⟩]
        ⟨"", .STATUS_NO_OPERATION, 0, 0⟩).procTrace :=
  (commitFromStream_progress_monotone 8192 4096 0 8192
    [⟨4096, false, true⟩, ⟨4096, false, true⟩]
    ⟨"", .STATUS_NO_OPERATION, 0, 0⟩ (by norm_num) (by norm_num)).1

end Gsid
